import Mathlib

/-!
Shallow embedding of the SDN_offloading control-plane logic
(`src/SDN-Link-Quality-Prediction/src/`): the quality classifier, the
throughput predictor's deterministic shell, the flowlet splitter's
group-table installation, the per-packet flowlet boundary detector, the
Algorithm-1 control-loop cycle, and the two controllers' authentication and
negotiation endpoints.  Real-valued Python floats are modelled as exact
rationals; Python dicts are modelled as functions into `Option`.
-/

namespace SDNOffloading

/-- The three channel-quality labels used throughout the system. -/
inductive Quality
  | Good
  | Intermediate
  | Bad
deriving DecidableEq, Repr

/-- Python `int()` applied to a float: truncation toward zero. -/
def pyInt (x : ℚ) : ℤ := if x < 0 then ⌈x⌉ else ⌊x⌋

/-! ### quality_classifier.py -/

/-- Threshold configuration of `QualityClassifier.__init__`. -/
structure QualityClassifier where
  rssi_good_threshold : ℚ
  rssi_bad_threshold : ℚ
  pdr_good_threshold : ℚ
  pdr_bad_threshold : ℚ
deriving DecidableEq, Repr

/-- The thresholds set in `QualityClassifier.__init__`:
rssi good −75 dBm, rssi bad −87 dBm, pdr good 0.85, pdr bad 0.75. -/
def QualityClassifier.init : QualityClassifier :=
  { rssi_good_threshold := -75
    rssi_bad_threshold := -87
    pdr_good_threshold := 85/100
    pdr_bad_threshold := 75/100 }

/-- `QualityClassifier.classify` (quality_classifier.py lines 45-55):
Bad if `pdr <= pdr_bad_threshold or rssi <= rssi_bad_threshold`, else Good
if `pdr >= pdr_good_threshold and rssi >= rssi_good_threshold`, else
Intermediate.  (The Python `try/except` around pure comparisons can never
fire and is dropped.) -/
def QualityClassifier.classify (c : QualityClassifier) (rssi pdr : ℚ) : Quality :=
  if pdr ≤ c.pdr_bad_threshold ∨ rssi ≤ c.rssi_bad_threshold then Quality.Bad
  else if c.pdr_good_threshold ≤ pdr ∧ c.rssi_good_threshold ≤ rssi then Quality.Good
  else Quality.Intermediate

/-! ### channel_predictor.py -/

/-- `ChannelPredictor._fallback_prediction`: heuristic prediction from the
last raw sample; returns (throughput, quality, confidence). -/
def fallback_prediction (rssi pdr : ℚ) : ℚ × Quality × ℚ :=
  let rssi_norm := (rssi + 100) / 50
  let score := 1/2 * rssi_norm + 1/2 * pdr
  if -74 ≤ rssi ∧ 88/100 ≤ pdr then (8, Quality.Good, score)
  else if rssi ≤ -88 ∨ pdr ≤ 76/100 then (2, Quality.Bad, 1 - score)
  else (5, Quality.Intermediate, 1/2)

/-- Outcome of one call of the loaded BLSTM model inside
`predict_throughput`: `ok c` is the argmax class, `err` models the
`except` branch (any exception raised by the model). -/
inductive ScorerResult
  | ok (c : ℕ)
  | err
deriving DecidableEq, Repr

/-- `throughput_map.get(pred_class, 5.0)` of predict_throughput. -/
def throughput_map (c : ℕ) : ℚ :=
  if c = 0 then 2 else if c = 1 then 5 else if c = 2 then 8 else 5

/-- `quality_map.get(pred_class, 'Intermediate')` of predict_throughput. -/
def quality_map (c : ℕ) : Quality :=
  if c = 0 then Quality.Bad
  else if c = 1 then Quality.Intermediate
  else if c = 2 then Quality.Good
  else Quality.Intermediate

/-- `ChannelPredictor.predict_throughput` (channel_predictor.py lines
97-160).  The opaque BLSTM scorer is a parameter: `none` models
`model_loaded == False`, `some f` a loaded model whose prediction on the
window is `f rssi_series pdr_series`.  Stages embedded from the source:
the `< 30`-samples early return, scorer-or-fallback selection, the Table-8
video-threshold override on the last raw sample, and the final clamp to
[1, 20]. -/
def predict_throughput (scorer : Option (List ℚ → List ℚ → ScorerResult))
    (rssi_series pdr_series : List ℚ) : ℚ × Quality :=
  if rssi_series.length < 30 ∨ pdr_series.length < 30 then
    (5, Quality.Intermediate)
  else
    let last_rssi := rssi_series.getLastD 0
    let last_pdr := pdr_series.getLastD 0
    let base : ℚ × Quality :=
      match scorer with
      | some f =>
          match f rssi_series pdr_series with
          | ScorerResult.ok c => (throughput_map c, quality_map c)
          | ScorerResult.err =>
              ((fallback_prediction last_rssi last_pdr).1,
               (fallback_prediction last_rssi last_pdr).2.1)
      | none =>
          ((fallback_prediction last_rssi last_pdr).1,
           (fallback_prediction last_rssi last_pdr).2.1)
    let adjusted : ℚ × Quality :=
      if -90 ≤ last_rssi ∧ 75/100 ≤ last_pdr then
        if -74 ≤ last_rssi ∧ 88/100 ≤ last_pdr then
          (base.1 * (12/10), Quality.Good)
        else
          (base.1, Quality.Intermediate)
      else
        (base.1 * (7/10), Quality.Bad)
    (max 1 (min 20 adjusted.1), adjusted.2)

/-! ### traffic_offloading.py -/

/-- An OpenFlow `OFPGroupMod` message as emitted by the offloader (only
the fields the dataplane semantics depends on: command, group id, and for
add/modify the two integer bucket weights). -/
inductive GroupMod
  | delete (group_id : ℕ)
  | add (group_id : ℕ) (lte_bucket_weight wifi_bucket_weight : ℤ)
  | modify (group_id : ℕ) (lte_bucket_weight wifi_bucket_weight : ℤ)
deriving DecidableEq, Repr

/-- `TrafficOffloader._install_flowlet_group_table` (traffic_offloading.py
lines 106-174), as the sequence of group-table messages it sends on every
call: bucket weights `max(1, int(w * 100))`, then an unconditional
OFPGC_DELETE of group 1 followed by an OFPGC_ADD of group 1 with the new
buckets.  (The subsequent flow-entry install of `_install_flowlet_flow` is
a FlowMod, not a group-table message, and is outside this stream.) -/
def install_flowlet_group_table (lte_weight wifi_weight : ℚ) : List GroupMod :=
  let lte_bucket_weight := max 1 (pyInt (lte_weight * 100))
  let wifi_bucket_weight := max 1 (pyInt (wifi_weight * 100))
  [GroupMod.delete 1, GroupMod.add 1 lte_bucket_weight wifi_bucket_weight]

/-! ### ryu_controller_Lte.py: Algorithm 2 flowlet detection
(packet_in_handler lines 253-282) -/

/-- Per-flow flowlet state: `packet_times.get(flow_key)` (`none` before the
first packet), `flowlet_counters[flow_key]`, `packet_counters[flow_key]`. -/
structure FlowletState where
  packet_time : Option ℚ
  flowlet_counter : ℕ
  packet_counter : ℕ
deriving DecidableEq, Repr

/-- State of a freshly detected monitored flow (counters initialised to 0,
no packet time recorded yet). -/
def initFlowletState : FlowletState :=
  { packet_time := none, flowlet_counter := 0, packet_counter := 0 }

/-- One packet arrival at `current_time` (seconds) on a monitored flow:
the per-packet flowlet-detection block of `packet_in_handler`.  Returns
the new state, `is_new_flowlet`, and `gap_ms`.  A first packet is a new
flowlet with gap 0; otherwise a new flowlet starts iff the gap exceeds
0.05 s (Δ = 50 ms). -/
def flowlet_packet_step (s : FlowletState) (current_time : ℚ) :
    FlowletState × Bool × ℚ :=
  let packet_counter := s.packet_counter + 1
  match s.packet_time with
  | none =>
      ({ packet_time := some current_time
         flowlet_counter := s.flowlet_counter + 1
         packet_counter := packet_counter }, true, 0)
  | some prev =>
      let gap := current_time - prev
      let is_new_flowlet : Bool := if 1/20 < gap then true else false
      ({ packet_time := some current_time
         flowlet_counter :=
           if is_new_flowlet then s.flowlet_counter + 1 else s.flowlet_counter
         packet_counter := packet_counter }, is_new_flowlet, gap * 1000)

/-- Run the flowlet detector over a list of packet arrival times, recording
the flowlet counter (the packet's flowlet id) after each packet. -/
def flowlet_run : FlowletState → List ℚ → List ℕ
  | _, [] => []
  | s, t :: ts =>
      let s' := (flowlet_packet_step s t).1
      s'.flowlet_counter :: flowlet_run s' ts

/-! ### ryu_controller_Lte.py: Algorithm 1 control loop -/

/-- The decision logged for a cycle. -/
inductive Decision
  | LTE_ONLY
  | OFFLOAD
deriving DecidableEq, Repr

/-- What one iteration of the `while True` loop tells the loop to do:
fall through to the next cycle, or `break` (flow transfer completed). -/
inductive LoopSignal
  | continue_loop
  | complete_break
deriving DecidableEq, Repr

/-- External inputs consumed by one cycle of `_algorithm_1_loop`.
`wifi_load_resp = none` models a failed/timed-out `/wifi_load` query
(every exception is caught inside `_query_wifi_load`).
`lte_tput_mbps` is the value of `_calculate_lte_throughput()` this cycle
(already clamped by that function; its transcendental capacity formula is
abstracted as an input).  `quality_label` is the `classify_link` output on
the current LTE metrics.  `negotiation_ok` is the boolean outcome of
`_exchange_credentials` (False covers every caught negotiation error).
`install_ok` — modelled from the spec: the offloader's group-table
install/update transaction, called as `install_or_update_group` but absent
from the sources, is per spec §4.3 a transaction that either succeeds or
fails without raising, returning success as a boolean. -/
structure CycleEnv where
  wifi_load_resp : Option ℚ
  lte_tput_mbps : ℚ
  pred_lte_tput : ℚ
  pred_wifi_tput : ℚ
  quality_label : Quality
  negotiation_ok : Bool
  have_offloader : Bool
  install_ok : Bool
  flowlet_stamp : ℕ
deriving DecidableEq, Repr

/-- Mutable loop state read and written by a cycle: the LTE metric-window
fill level (`len(self.lte_rssi_window)`), `V_remaining`, and `T_c`. -/
structure LoopState where
  window_len : ℕ
  V_remaining : ℚ
  T_c : ℚ
deriving DecidableEq, Repr

/-- `_calculate_T_LTE` (Equation 7): `volume / (rate/8)`, 999 when the
rate is not positive. -/
def calculate_T_LTE (volume_mb data_rate_mbps : ℚ) : ℚ :=
  let data_rate_mbps_actual := data_rate_mbps / 8
  if 0 < data_rate_mbps_actual then volume_mb / data_rate_mbps_actual
  else 999

/-- `_query_wifi_load`: the load from a successful response, 0.30 on any
failure (also the `data.get` default). -/
def query_wifi_load (resp : Option ℚ) : ℚ :=
  match resp with
  | some load => load
  | none => 30/100

/-- `_execute_offload` (ryu_controller_Lte.py lines 524-591): returns
`(alpha, V_LTE, V_WiFi, flowlet_id)`.  Mirrors the source: alpha from
predicted throughputs and WiFi load clamped to [0,1], Equations 8-10 for
the volumes, the `V_WiFi < 1` abandon branch, the credential-exchange
gate, and the offloader install gate (see `CycleEnv.install_ok`). -/
def execute_offload (wifi_load pred_lte_tput pred_wifi_tput V_remaining T_c : ℚ)
    (negotiation_ok have_offloader install_ok : Bool) (flowlet_stamp : ℕ) :
    ℚ × ℚ × ℚ × Option ℕ :=
  let total_tput := pred_lte_tput + pred_wifi_tput
  let alpha_raw := if 0 < total_tput then pred_wifi_tput / total_tput * (1 - wifi_load) else 0
  let alpha := max 0 (min 1 alpha_raw)
  let T_LTE := calculate_T_LTE V_remaining pred_lte_tput
  let T_prime_LTE := if T_LTE < T_c then T_c - T_LTE else 0
  let V_LTE :=
    if 0 < T_prime_LTE then pred_lte_tput / 8 * T_prime_LTE
    else pred_lte_tput / 8 * T_c
  let V_WiFi := max 0 (V_remaining - V_LTE)
  if V_WiFi < 1 then (0, V_LTE, 0, none)
  else if negotiation_ok = false then (0, V_LTE, 0, none)
  else if have_offloader then
    if install_ok then (alpha, V_LTE, V_WiFi, some flowlet_stamp)
    else (0, V_LTE, 0, none)
  else (0, V_LTE, 0, none)

/-- The per-cycle record logged by `_log_decision`. -/
structure CycleOutcome where
  decision : Option Decision
  alpha : ℚ
  V_LTE : ℚ
  V_WiFi : ℚ
  flowlet_id : Option ℕ
deriving DecidableEq, Repr

/-- One iteration of the `while True` body of `_algorithm_1_loop`
(ryu_controller_Lte.py lines 410-493): warm-up guard on the LTE window,
wifi-load query, T_LTE computation, the Step 5-7 decision (LTE-only iff
`T_LTE < T_c` and the classification is not Bad, offload otherwise, the
offload branches calling `_execute_offload`), the volume update
`V_remaining = max(0, V_remaining - (lte_tput/8)*5)`, and the `break` when
the remaining volume reaches 0.  `decision = none` reports a warm-up
cycle, in which no decision is logged. -/
def algorithm_1_cycle (env : CycleEnv) (s : LoopState) :
    CycleOutcome × LoopState × LoopSignal :=
  if 30 ≤ s.window_len then
    let wifi_load := query_wifi_load env.wifi_load_resp
    let lte_tput_mbps := env.lte_tput_mbps
    let T_LTE := calculate_T_LTE s.V_remaining lte_tput_mbps
    let step : Decision × ℚ × ℚ × ℚ × Option ℕ :=
      if T_LTE < s.T_c then
        if env.quality_label = Quality.Bad then
          let r := execute_offload wifi_load env.pred_lte_tput env.pred_wifi_tput
            s.V_remaining s.T_c env.negotiation_ok env.have_offloader env.install_ok
            env.flowlet_stamp
          (Decision.OFFLOAD, r)
        else
          (Decision.LTE_ONLY, 0, 0, 0, none)
      else
        let r := execute_offload wifi_load env.pred_lte_tput env.pred_wifi_tput
          s.V_remaining s.T_c env.negotiation_ok env.have_offloader env.install_ok
          env.flowlet_stamp
        (Decision.OFFLOAD, r)
    let transmitted_MB := lte_tput_mbps / 8 * 5
    let V_remaining' := max 0 (s.V_remaining - transmitted_MB)
    let s' : LoopState := { s with V_remaining := V_remaining' }
    let signal :=
      if V_remaining' ≤ 0 then LoopSignal.complete_break else LoopSignal.continue_loop
    ({ decision := some step.1, alpha := step.2.1, V_LTE := step.2.2.1,
       V_WiFi := step.2.2.2.1, flowlet_id := step.2.2.2.2 }, s', signal)
  else
    ({ decision := none, alpha := 0, V_LTE := 0, V_WiFi := 0, flowlet_id := none },
     s, LoopSignal.continue_loop)

/-! ### ryu_controller_Lte.py: authentication and charging -/

/-- A per-UE session record stored in `authenticated_ues`. -/
structure UESession where
  auth_time : ℚ
  quota_mb : ℚ
  used_mb : ℚ
  status : String
deriving DecidableEq, Repr

/-- One entry of `charging_records`. -/
structure ChargingRecord where
  timestamp : ℚ
  ue_mac : String
  data_mb : ℚ
  total_used : ℚ
deriving DecidableEq, Repr

/-- The LTE controller's authentication/charging state. -/
structure LteAuthState where
  authenticated_ues : String → Option UESession
  charging_records : List ChargingRecord

/-- `f"TOKEN_{ue_mac.replace(':', '').upper()}"`. -/
def expected_token (ue_mac : String) : String :=
  "TOKEN_" ++ (((ue_mac.toList.filter (fun c => c ≠ ':')).map Char.toUpper).asString)

/-- `LTEController.authenticate_ue` (ryu_controller_Lte.py lines 695-712):
on a token match, unconditionally (re)writes the UE's session record with
`used_mb = 0.0` and `quota_mb = 1000.0` and returns True; otherwise
returns False leaving the state unchanged. -/
def authenticate_ue (st : LteAuthState) (now : ℚ) (ue_mac provided_token : String) :
    Bool × LteAuthState :=
  if provided_token = expected_token ue_mac then
    (true,
     { st with authenticated_ues := fun m =>
         if m = ue_mac then
           some { auth_time := now, quota_mb := 1000, used_mb := 0, status := "active" }
         else st.authenticated_ues m })
  else
    (false, st)

/-- `LTEController.update_charging` (ryu_controller_Lte.py lines 714-729):
adds `data_mb` to the UE's `used_mb` and appends a charging record; no-op
for a UE that is not authenticated. -/
def update_charging (st : LteAuthState) (now : ℚ) (ue_mac : String) (data_mb : ℚ) :
    LteAuthState :=
  match st.authenticated_ues ue_mac with
  | none => st
  | some sess =>
      let sess' := { sess with used_mb := sess.used_mb + data_mb }
      { authenticated_ues := fun m =>
          if m = ue_mac then some sess' else st.authenticated_ues m
        charging_records := st.charging_records ++
          [{ timestamp := now, ue_mac := ue_mac, data_mb := data_mb,
             total_used := sess'.used_mb }] }

/-! ### ryu_controller_Wifi.py: negotiation endpoint -/

/-- The WiFi controller state read and written by `/offload_confirm`. -/
structure WifiState where
  valid_tokens : String → Option String
  authenticated_ues : String → Option (String × ℚ)
  wifi_capacity_mbps : ℚ
  current_load : ℚ

/-- Outcome of a `/offload_confirm` request: the two 403 failures and the
success payload's `allocated_bw`. -/
inductive ConfirmOutcome
  | unknown_ue
  | invalid_credentials
  | confirmed (allocated_bw : ℚ)
deriving DecidableEq, Repr

/-- `WiFiRestController.offload_confirm` (ryu_controller_Wifi.py lines
240-294): unknown MAC → `unknown_ue`, wrong token → `invalid_credentials`
(both leave the state untouched); on a token match the UE is recorded as
authenticated and `allocated_bw = min(requested_bw,
wifi_capacity_mbps * (1 - current_load))`. -/
def offload_confirm (st : WifiState) (now : ℚ) (ue_mac provided_token : String)
    (requested_bw : ℚ) : ConfirmOutcome × WifiState :=
  match st.valid_tokens ue_mac with
  | none => (ConfirmOutcome.unknown_ue, st)
  | some exp_token =>
      if provided_token ≠ exp_token then
        (ConfirmOutcome.invalid_credentials, st)
      else
        let st' := { st with authenticated_ues := fun m =>
            if m = ue_mac then some (provided_token, now) else st.authenticated_ues m }
        let available_bw := st.wifi_capacity_mbps * (1 - st.current_load)
        let allocated_bw := min requested_bw available_bw
        (ConfirmOutcome.confirmed allocated_bw, st')

end SDNOffloading

namespace SDNOffloading

/-- C7: `classify` is a total, deterministic, side-effect-free function:
for every (rssi, pdr) pair it returns exactly one of Good, Intermediate,
Bad, with the Bad rule taking priority (Bad when pdr ≤ bad_pdr_threshold
OR rssi ≤ bad_rssi_threshold), then Good (when pdr ≥ good_pdr_threshold
AND rssi ≥ good_rssi_threshold), otherwise Intermediate. -/
theorem classify_total_and_rule (c : QualityClassifier) (rssi pdr : ℚ) :
    (c.classify rssi pdr = Quality.Bad ↔
      pdr ≤ c.pdr_bad_threshold ∨ rssi ≤ c.rssi_bad_threshold) ∧
    (c.classify rssi pdr = Quality.Good ↔
      ¬(pdr ≤ c.pdr_bad_threshold ∨ rssi ≤ c.rssi_bad_threshold) ∧
        (c.pdr_good_threshold ≤ pdr ∧ c.rssi_good_threshold ≤ rssi)) ∧
    (c.classify rssi pdr = Quality.Intermediate ↔
      ¬(pdr ≤ c.pdr_bad_threshold ∨ rssi ≤ c.rssi_bad_threshold) ∧
        ¬(c.pdr_good_threshold ≤ pdr ∧ c.rssi_good_threshold ≤ rssi)) := by
  unfold QualityClassifier.classify
  split_ifs with h1 h2 <;> simp_all

/-- C8 counterexample: with the classifier's own thresholds
(bad pdr = 0.75), pdr = 0.76 at rssi = −60 dBm classifies as
Intermediate, not Bad, so the claim fails on `QualityClassifier.classify`. -/
theorem pdr_076_counterexample :
    QualityClassifier.init.classify (-60) (76/100) = Quality.Intermediate ∧
    QualityClassifier.init.classify (-60) (76/100) ≠ Quality.Bad := by
  have h : QualityClassifier.init.classify (-60) (76/100) = Quality.Intermediate := by
    norm_num [QualityClassifier.classify, QualityClassifier.init]
  exact ⟨h, by rw [h]; decide⟩

/-- C8 (amended): the pdr-boundary that yields Bad regardless of signal is
0.76 for the predictor's fallback heuristic (Bad when pdr ≤ 0.76) but 0.75
for `QualityClassifier.classify` (Bad when pdr ≤ 0.75), each resolved per
the PDR-first priority. -/
theorem pdr_boundary_bad_rule (rssi : ℚ) :
    (fallback_prediction rssi (76/100)).2.1 = Quality.Bad ∧
    QualityClassifier.init.classify rssi (75/100) = Quality.Bad := by
  constructor
  · unfold fallback_prediction
    norm_num
  · unfold QualityClassifier.classify QualityClassifier.init
    norm_num

/-- C6: for every input window in which either series has fewer than 30
samples, `predict_throughput` returns exactly the configured default
(throughput 5.0 Mbps, label Intermediate), independent of the sample
values and of the scorer. -/
theorem predict_throughput_cold_start
    (scorer : Option (List ℚ → List ℚ → ScorerResult))
    (rssi_series pdr_series : List ℚ)
    (h : rssi_series.length < 30 ∨ pdr_series.length < 30) :
    predict_throughput scorer rssi_series pdr_series = (5, Quality.Intermediate) := by
  unfold predict_throughput
  rw [if_pos h]

/-- Witness for C6: the empty window returns the cold-start default. -/
theorem predict_throughput_cold_start_witness :
    predict_throughput none [] [] = (5, Quality.Intermediate) :=
  predict_throughput_cold_start none [] [] (Or.inl (by norm_num))

/-- C3 counterexample: a weight update at split 0.5/0.5 sends an
OFPGC_DELETE of group 1 followed by an OFPGC_ADD — the installed table is
deleted and re-added, not modified in place. -/
theorem group_table_delete_readd_counterexample :
    install_flowlet_group_table (1/2) (1/2) =
      [GroupMod.delete 1, GroupMod.add 1 50 50] := by
  norm_num [install_flowlet_group_table, pyInt]

/-- C3 (amended): every call of the group-table installer — the first
install and every subsequent weight update alike — first deletes group 1
and then re-adds it with the new bucket weights; no modify-in-place
message is ever emitted. -/
theorem group_table_update_delete_then_add (lte_weight wifi_weight : ℚ) :
    (install_flowlet_group_table lte_weight wifi_weight).head? =
      some (GroupMod.delete 1) ∧
    (∃ w1 w2 : ℤ,
      GroupMod.add 1 w1 w2 ∈ install_flowlet_group_table lte_weight wifi_weight) ∧
    ∀ (g : ℕ) (w1 w2 : ℤ),
      GroupMod.modify g w1 w2 ∉ install_flowlet_group_table lte_weight wifi_weight := by
  refine ⟨rfl, ⟨max 1 (pyInt (lte_weight * 100)), max 1 (pyInt (wifi_weight * 100)), ?_⟩, ?_⟩
  · simp [install_flowlet_group_table]
  · intro g w1 w2
    simp [install_flowlet_group_table]

/-- C4: for every pair of split fractions summing to 1 (equivalently every
alpha in [0,1] against 1−alpha), the two integer bucket weights actually
installed are each at least 1 and sum to 100 up to rounding error (±1). -/
theorem bucket_weights_invariant (lte_weight wifi_weight : ℚ)
    (h0 : 0 ≤ lte_weight) (h1 : 0 ≤ wifi_weight)
    (hsum : lte_weight + wifi_weight = 1) :
    ∃ w1 w2 : ℤ,
      install_flowlet_group_table lte_weight wifi_weight =
        [GroupMod.delete 1, GroupMod.add 1 w1 w2] ∧
      1 ≤ w1 ∧ 1 ≤ w2 ∧ 99 ≤ w1 + w2 ∧ w1 + w2 ≤ 101 := by
  refine ⟨max 1 (pyInt (lte_weight * 100)), max 1 (pyInt (wifi_weight * 100)), rfl,
    le_max_left _ _, le_max_left _ _, ?_, ?_⟩ <;>
  · have hl : pyInt (lte_weight * 100) = ⌊lte_weight * 100⌋ := by
      unfold pyInt
      rw [if_neg]
      push_neg
      positivity
    have hw : pyInt (wifi_weight * 100) = ⌊wifi_weight * 100⌋ := by
      unfold pyInt
      rw [if_neg]
      push_neg
      positivity
    have hb0 : 0 ≤ ⌊lte_weight * 100⌋ := Int.floor_nonneg.mpr (by positivity)
    have hc0 : 0 ≤ ⌊wifi_weight * 100⌋ := Int.floor_nonneg.mpr (by positivity)
    have hble : (⌊lte_weight * 100⌋ : ℚ) ≤ lte_weight * 100 := Int.floor_le _
    have hcle : (⌊wifi_weight * 100⌋ : ℚ) ≤ wifi_weight * 100 := Int.floor_le _
    have hbgt : lte_weight * 100 - 1 < (⌊lte_weight * 100⌋ : ℚ) := Int.sub_one_lt_floor _
    have hcgt : wifi_weight * 100 - 1 < (⌊wifi_weight * 100⌋ : ℚ) := Int.sub_one_lt_floor _
    have hsum_le : ⌊lte_weight * 100⌋ + ⌊wifi_weight * 100⌋ ≤ 100 := by
      have hq : ((⌊lte_weight * 100⌋ + ⌊wifi_weight * 100⌋ : ℤ) : ℚ) ≤ 100 := by
        push_cast
        linarith [hsum]
      exact_mod_cast hq
    have hsum_ge : 99 ≤ ⌊lte_weight * 100⌋ + ⌊wifi_weight * 100⌋ := by
      have hq : (98 : ℚ) < ((⌊lte_weight * 100⌋ + ⌊wifi_weight * 100⌋ : ℤ) : ℚ) := by
        push_cast
        linarith [hsum]
      have hz : (98 : ℤ) < ⌊lte_weight * 100⌋ + ⌊wifi_weight * 100⌋ := by exact_mod_cast hq
      omega
    rw [hl, hw]
    omega

/-- Witness for C4: at the 0.5/0.5 split the installed weights are both
≥ 1 and sum to within 1 of 100. -/
theorem bucket_weights_invariant_witness :
    ∃ w1 w2 : ℤ,
      install_flowlet_group_table (1/2) (1/2) =
        [GroupMod.delete 1, GroupMod.add 1 w1 w2] ∧
      1 ≤ w1 ∧ 1 ≤ w2 ∧ 99 ≤ w1 + w2 ∧ w1 + w2 ≤ 101 :=
  bucket_weights_invariant (1/2) (1/2) (by norm_num) (by norm_num) (by norm_num)

/-- C5: a packet on a monitored flow starts a new flowlet iff it is the
flow's first packet or the gap since the previous packet exceeds 50 ms
(0.05 s); any gap ≤ 50 ms keeps the current flowlet; and the packet-time
trace with gaps [0, 10 ms, 60 ms, 5 ms] produces flowlet ids [1, 1, 2, 2]. -/
theorem flowlet_boundary_rule :
    (∀ (s : FlowletState) (t : ℚ), s.packet_time = none →
        (flowlet_packet_step s t).2.1 = true ∧
        (flowlet_packet_step s t).1.flowlet_counter = s.flowlet_counter + 1) ∧
    (∀ (s : FlowletState) (prev t : ℚ), s.packet_time = some prev →
        ((flowlet_packet_step s t).2.1 = true ↔ 1/20 < t - prev) ∧
        (flowlet_packet_step s t).1.flowlet_counter =
          (if 1/20 < t - prev then s.flowlet_counter + 1 else s.flowlet_counter)) ∧
    flowlet_run initFlowletState [0, 1/100, 7/100, 3/40] = [1, 1, 2, 2] := by
  refine ⟨?_, ?_, ?_⟩
  · intro s t h
    simp [flowlet_packet_step, h]
  · intro s prev t h
    by_cases hc : 1/20 < t - prev <;> simp [flowlet_packet_step, h, hc]
  · norm_num [flowlet_run, flowlet_packet_step, initFlowletState]

/-- Witness for C5: a first packet starts a flowlet, and a 70 ms gap
after a packet at time 0 starts a new flowlet. -/
theorem flowlet_boundary_rule_witness :
    (flowlet_packet_step initFlowletState 0).2.1 = true ∧
    ((flowlet_packet_step
        { packet_time := some 0, flowlet_counter := 1, packet_counter := 1 }
        (7/100)).2.1 = true ↔ (1:ℚ)/20 < 7/100 - 0) :=
  ⟨(flowlet_boundary_rule.1 initFlowletState 0 rfl).1,
   (flowlet_boundary_rule.2.1
     { packet_time := some 0, flowlet_counter := 1, packet_counter := 1 } 0 (7/100) rfl).1⟩

/-- C1: in every control cycle with a warmed-up window, the logged
decision is LTE-only iff `T_LTE < T_c` and the current LTE quality
classification is not Bad; in every other case the cycle decides offload. -/
theorem algorithm_1_decision_rule (env : CycleEnv) (s : LoopState)
    (h : 30 ≤ s.window_len) :
    ((algorithm_1_cycle env s).1.decision = some Decision.LTE_ONLY ↔
      (calculate_T_LTE s.V_remaining env.lte_tput_mbps < s.T_c ∧
        env.quality_label ≠ Quality.Bad)) ∧
    ((algorithm_1_cycle env s).1.decision = some Decision.OFFLOAD ↔
      ¬(calculate_T_LTE s.V_remaining env.lte_tput_mbps < s.T_c ∧
        env.quality_label ≠ Quality.Bad)) := by
  unfold algorithm_1_cycle
  rw [if_pos h]
  by_cases h1 : calculate_T_LTE s.V_remaining env.lte_tput_mbps < s.T_c <;>
    by_cases h2 : env.quality_label = Quality.Bad <;>
      simp [h1, h2]

/-- Witness for C1: a warmed-up cycle with T_LTE = 5 s < T_c = 15 s and a
Good classification decides LTE-only. -/
theorem algorithm_1_decision_rule_witness :
    (algorithm_1_cycle
        { wifi_load_resp := some (1/4), lte_tput_mbps := 16, pred_lte_tput := 8,
          pred_wifi_tput := 8, quality_label := Quality.Good, negotiation_ok := true,
          have_offloader := true, install_ok := true, flowlet_stamp := 42 }
        { window_len := 30, V_remaining := 10, T_c := 15 }).1.decision =
      some Decision.LTE_ONLY :=
  (algorithm_1_decision_rule _ _ (by norm_num)).1.mpr
    ⟨by norm_num [calculate_T_LTE], by simp⟩

/-- C2: no failure inside the offload subsystem (failed load query,
negotiation error, splitter install error) ever makes a cycle of the
Algorithm-1 loop `break`: the loop signal is `complete_break` exactly when
the warmed-up volume update exhausts `V_remaining`, a condition
independent of those failure outcomes, and replacing every offload-
subsystem outcome by a failure leaves the loop signal unchanged. -/
theorem algorithm_1_loop_resilience (env : CycleEnv) (s : LoopState) :
    ((algorithm_1_cycle env s).2.2 = LoopSignal.complete_break ↔
      (30 ≤ s.window_len ∧ s.V_remaining - env.lte_tput_mbps / 8 * 5 ≤ 0)) ∧
    (algorithm_1_cycle env s).2.2 =
      (algorithm_1_cycle
        { env with wifi_load_resp := none, negotiation_ok := false,
                   install_ok := false } s).2.2 := by
  constructor
  · unfold algorithm_1_cycle
    by_cases h : 30 ≤ s.window_len
    · rw [if_pos h]
      by_cases hv : s.V_remaining - env.lte_tput_mbps / 8 * 5 ≤ 0 <;>
        simp [h, hv, max_le_iff]
    · simp [h]
  · unfold algorithm_1_cycle
    by_cases h : 30 ≤ s.window_len <;> simp [h]

/-- C9: for every `/offload_confirm` request, an unknown MAC or a
non-matching token yields the corresponding failure outcome with the
controller state unchanged (no allocation), while a matching token yields
success with `allocated_bw = min(requested_bw, capacity * (1 - load))`. -/
theorem offload_confirm_spec (st : WifiState) (now : ℚ)
    (ue_mac provided_token : String) (requested_bw : ℚ) :
    (st.valid_tokens ue_mac = none →
      offload_confirm st now ue_mac provided_token requested_bw =
        (ConfirmOutcome.unknown_ue, st)) ∧
    (∀ e, st.valid_tokens ue_mac = some e → provided_token ≠ e →
      offload_confirm st now ue_mac provided_token requested_bw =
        (ConfirmOutcome.invalid_credentials, st)) ∧
    (∀ e, st.valid_tokens ue_mac = some e → provided_token = e →
      (offload_confirm st now ue_mac provided_token requested_bw).1 =
        ConfirmOutcome.confirmed
          (min requested_bw (st.wifi_capacity_mbps * (1 - st.current_load)))) := by
  refine ⟨?_, ?_, ?_⟩
  · intro h
    unfold offload_confirm
    rw [h]
  · intro e he hne
    unfold offload_confirm
    rw [he]
    simp [hne]
  · intro e he heq
    unfold offload_confirm
    rw [he]
    simp [heq]

/-- Witness for C9: a request with the known MAC and its matching token
succeeds with the min-of-request-and-available allocation. -/
theorem offload_confirm_spec_witness :
    (offload_confirm
        { valid_tokens := fun m =>
            if m = "00:00:00:00:00:02" then some "TOKEN_000000000002" else none,
          authenticated_ues := fun _ => none,
          wifi_capacity_mbps := 54, current_load := 1/2 }
        0 "00:00:00:00:00:02" "TOKEN_000000000002" 5).1 =
      ConfirmOutcome.confirmed (min (5:ℚ) (54 * (1 - 1/2))) :=
  (offload_confirm_spec _ 0 _ _ 5).2.2 "TOKEN_000000000002" (by simp) rfl

/-- C10: every successful `authenticate_ue` call — also a
re-authentication after `update_charging` has accumulated usage —
overwrites the UE's session record with `used_mb = 0.0` and
`quota_mb = 1000.0`, erasing the accumulated quota consumption. -/
theorem authenticate_ue_resets_session (st : LteAuthState) (now now' : ℚ)
    (ue_mac : String) (data_mb : ℚ) (provided_token : String)
    (h : provided_token = expected_token ue_mac) :
    (authenticate_ue (update_charging st now' ue_mac data_mb) now ue_mac
        provided_token).1 = true ∧
    (authenticate_ue (update_charging st now' ue_mac data_mb) now ue_mac
        provided_token).2.authenticated_ues ue_mac =
      some { auth_time := now, quota_mb := 1000, used_mb := 0, status := "active" } := by
  unfold authenticate_ue
  rw [if_pos h]
  exact ⟨rfl, by simp⟩

/-- Witness for C10: a UE with 120 MB used, charged 5 MB more, then
successfully re-authenticated, ends with a fresh 1000 MB quota and
0 MB used. -/
theorem authenticate_ue_resets_session_witness :
    (authenticate_ue
        (update_charging
          { authenticated_ues := fun m =>
              if m = "00:00:00:00:00:02" then
                some { auth_time := 0, quota_mb := 1000, used_mb := 120,
                       status := "active" }
              else none,
            charging_records := [] }
          1 "00:00:00:00:00:02" 5)
        2 "00:00:00:00:00:02" "TOKEN_000000000002").2.authenticated_ues
        "00:00:00:00:00:02" =
      some { auth_time := 2, quota_mb := 1000, used_mb := 0, status := "active" } :=
  (authenticate_ue_resets_session _ 2 1 _ 5 _ (by decide)).2

end SDNOffloading
